import Mathlib

/-!
Verification development for the connection-lifecycle core of the
database-workbench repository (src-tauri/src/backend).  Rust functions are
shallowly embedded as executable Lean definitions: strings stay `String`,
machine integers become `Nat`/`Int`, fallible calls return `Except String`,
and foreign driver / chrono primitives become explicit oracle parameters.
-/

namespace DBWorkbench

/-- Rust `char::to_ascii_lowercase`. -/
def asciiLowerChar (c : Char) : Char :=
  if 'A' ≤ c ∧ c ≤ 'Z' then Char.ofNat (c.toNat + 32) else c

/-- Rust `char::to_ascii_uppercase`. -/
def asciiUpperChar (c : Char) : Char :=
  if 'a' ≤ c ∧ c ≤ 'z' then Char.ofNat (c.toNat - 32) else c

/-- Rust `str::to_ascii_lowercase`. -/
def asciiLower (s : String) : String :=
  String.mk (s.data.map asciiLowerChar)

/-- Rust `str::to_ascii_uppercase` on a character list. -/
def asciiUpperList (l : List Char) : List Char :=
  l.map asciiUpperChar

/-- Rust `str::eq_ignore_ascii_case` on character lists. -/
def eqIgnoreAsciiCase (a b : List Char) : Bool :=
  a.map asciiLowerChar = b.map asciiLowerChar

/-- Rust substring containment `str::contains` (ASCII patterns). -/
def containsSub (hay pat : String) : Bool :=
  decide (pat.data <:+: hay.data)

/-- Rust `str::trim` on a character list. -/
def trimChars (l : List Char) : List Char :=
  ((l.dropWhile Char.isWhitespace).reverse.dropWhile Char.isWhitespace).reverse

/-- Rust `str::trim` (kernel-computable embedding). -/
def trimStr (s : String) : String :=
  String.mk (trimChars s.data)

/-- List prefix test (kernel-computable). -/
def isPrefixOfChars : List Char → List Char → Bool
  | [], _ => true
  | _ :: _, [] => false
  | a :: as, b :: bs => a = b && isPrefixOfChars as bs

/-- Rust `str::starts_with` (kernel-computable embedding). -/
def startsWithStr (s pre : String) : Bool :=
  isPrefixOfChars pre.data s.data

deriving instance DecidableEq for Except

/- ===== ssl.rs ===== -/

/-- `SslMode` from ssl.rs. -/
inductive SslMode where
  | Disabled
  | Preferred
  | Required
  | VerifyCa
  | VerifyIdentity
deriving DecidableEq, Repr

/-- Rust `.replace(Char, "-")` specialised to the single use in `parse_ssl_mode`. -/
def replaceUnderscoreWithDash (s : String) : String :=
  String.mk (s.data.map (fun c => if c = '_' then '-' else c))

/-- The normalisation pipeline inside `parse_ssl_mode`
(`unwrap_or("preferred").trim().to_ascii_lowercase().replace(Char, "-")`). -/
def normalizeSslModeInput (value : Option String) : String :=
  replaceUnderscoreWithDash (asciiLower (trimStr (value.getD ("preferred"))))

/-- `parse_ssl_mode` from ssl.rs (total: every input yields a mode). -/
def parse_ssl_mode (value : Option String) : SslMode :=
  match normalizeSslModeInput value with
  | "disabled" => SslMode.Disabled
  | "required" => SslMode.Required
  | "verify-ca" => SslMode.VerifyCa
  | "verify-identity" => SslMode.VerifyIdentity
  | _ => SslMode.Preferred

/-- `ssl_mode_to_session_value` from ssl.rs. -/
def ssl_mode_to_session_value (mode : SslMode) : String :=
  match mode with
  | SslMode.Disabled => "DISABLED"
  | SslMode.Preferred => "PREFERRED"
  | SslMode.Required => "REQUIRED"
  | SslMode.VerifyCa => "VERIFY_CA"
  | SslMode.VerifyIdentity => "VERIFY_IDENTITY"

/-- The fields of `ConnectionProfile` (models.rs) read by the SSL policy. -/
structure ConnectionProfile where
  ssl_mode : Option String := none
  ssl_ca_path : Option String := none
  ssl_cert_path : Option String := none
  ssl_key_path : Option String := none
deriving DecidableEq, Repr

/-- Model of the driver's `SslOpts` builder: the four knobs ssl.rs touches. -/
structure SslOpts where
  root_cert_path : Option String := none
  client_identity : Option (String × String) := none
  skip_domain_validation : Bool := false
  accept_invalid_certs : Bool := false
deriving DecidableEq, Repr

def SslOpts.with_root_cert_path (o : SslOpts) (p : Option String) : SslOpts :=
  { o with root_cert_path := p }

def SslOpts.with_client_identity (o : SslOpts) (ci : Option (String × String)) : SslOpts :=
  { o with client_identity := ci }

def SslOpts.with_danger_skip_domain_validation (o : SslOpts) (b : Bool) : SslOpts :=
  { o with skip_domain_validation := b }

def SslOpts.with_danger_accept_invalid_certs (o : SslOpts) (b : Bool) : SslOpts :=
  { o with accept_invalid_certs := b }

/-- Model of the driver's `OptsBuilder`: only the ssl_opts slot matters here. -/
structure OptsBuilder where
  ssl : Option SslOpts := none
deriving DecidableEq, Repr

def OptsBuilder.set_ssl_opts (b : OptsBuilder) (o : Option SslOpts) : OptsBuilder :=
  { b with ssl := o }

/-- `non_empty` from ssl.rs: empty-after-trim counts as absent. -/
def non_empty (value : Option String) : Option String :=
  value.bind (fun v =>
    let trimmed := trimStr v
    if trimmed = "" then none else some trimmed)

/-- `apply_ssl_mode_to_builder` from ssl.rs. -/
def apply_ssl_mode_to_builder (builder : OptsBuilder) (profile : ConnectionProfile) :
    Except String OptsBuilder :=
  let mode := parse_ssl_mode profile.ssl_mode
  match mode with
  | SslMode.Disabled => Except.ok (builder.set_ssl_opts none)
  | SslMode.Preferred =>
    let ssl_opts :=
      (SslOpts.with_danger_accept_invalid_certs
        (SslOpts.with_danger_skip_domain_validation {} true) true)
    Except.ok (builder.set_ssl_opts (some ssl_opts))
  | SslMode.Required | SslMode.VerifyCa | SslMode.VerifyIdentity =>
    let ca_path := non_empty profile.ssl_ca_path
    let cert_path := non_empty profile.ssl_cert_path
    let key_path := non_empty profile.ssl_key_path
    if (mode = SslMode.VerifyCa ∨ mode = SslMode.VerifyIdentity) ∧ ca_path = none then
      Except.error "SSL mode VERIFY_CA / VERIFY_IDENTITY requires an SSL CA certificate path"
    else if cert_path.isSome ≠ key_path.isSome then
      Except.error "SSL client certificate and SSL client key must be set together"
    else
      let ssl_opts : SslOpts := {}
      let ssl_opts :=
        match ca_path with
        | some path => ssl_opts.with_root_cert_path (some path)
        | none => ssl_opts
      let ssl_opts :=
        match cert_path, key_path with
        | some cert, some key => ssl_opts.with_client_identity (some (cert, key))
        | _, _ => ssl_opts
      let ssl_opts :=
        match mode with
        | SslMode.Required =>
          if ca_path.isSome then
            ssl_opts.with_danger_skip_domain_validation true
          else
            (ssl_opts.with_danger_skip_domain_validation true).with_danger_accept_invalid_certs
              true
        | SslMode.VerifyCa => ssl_opts.with_danger_skip_domain_validation true
        | SslMode.VerifyIdentity => ssl_opts
        | _ => ssl_opts
      Except.ok (builder.set_ssl_opts (some ssl_opts))

/- ===== pool.rs : ConnectionState ===== -/

/-- `ConnectionState` from pool.rs; the raw `Conn` is abstracted to a
numeric connection identifier handed out by the pool oracle. -/
structure ConnectionState where
  conn : Nat
  current_database : Option String
  created_at : Nat
  use_count : Nat
  last_used_at : Nat
  in_transaction : Nat
  has_temporary_tables : Nat
  auto_reconnect : Bool
deriving DecidableEq, Repr

/-- `ConnectionState::new`; `now` stands for the sampled system time. -/
def ConnectionState.new (conn : Nat) (current_database : Option String)
    (auto_reconnect : Bool) (now : Nat) : ConnectionState :=
  { conn := conn
    current_database := current_database
    created_at := now
    use_count := 0
    last_used_at := now
    in_transaction := 0
    has_temporary_tables := 0
    auto_reconnect := auto_reconnect }

/-- `ConnectionState::record_use`. -/
def ConnectionState.record_use (s : ConnectionState) (now : Nat) : ConnectionState :=
  { s with use_count := s.use_count + 1, last_used_at := now }

/-- `ConnectionState::can_safely_reconnect` from pool.rs. -/
def ConnectionState.can_safely_reconnect (s : ConnectionState) : Bool × Option String :=
  if !s.auto_reconnect then
    (false, some "Auto-reconnect is disabled for this connection")
  else if s.in_transaction > 0 then
    (false, some ("Active transaction detected (nesting level: " ++ toString s.in_transaction ++
      "). Auto-reconnect disabled to prevent data inconsistency."))
  else if s.has_temporary_tables > 0 then
    (false, some ("Temporary tables exist (count: " ++ toString s.has_temporary_tables ++
      "). Auto-reconnect disabled to prevent data loss."))
  else
    (true, none)

/- ===== pool.rs : session init ===== -/

/-- `escape_identifier` from pool.rs. -/
def escape_identifier (identifier : String) : String :=
  String.mk (identifier.data.foldr
    (fun c acc =>
      if c = Char.ofNat 96 then Char.ofNat 96 :: Char.ofNat 96 :: acc else c :: acc) [])

/-- The fields of `PoolConfig` (pool.rs) read by `build_session_init_sql`. -/
structure PoolConfig where
  charset : Option String := none
  collation : Option String := none
  timeout_seconds : Option Nat := none
  ssl_mode : Option String := none
  current_database : Option String := none
deriving DecidableEq, Repr

/-- `sanitize_mysql_token` from pool.rs. -/
def sanitize_mysql_token (value : String) : Option String :=
  let trimmed := trimStr value
  if trimmed = "" then none
  else if trimmed.data.all (fun c => c.isAlphanum ∨ c = '_' ∨ c = '-') then some trimmed
  else none

/-- `build_session_init_sql` from pool.rs, statement by statement in source order. -/
def build_session_init_sql (config : PoolConfig) : List String :=
  (match config.current_database with
   | some db => if trimStr db ≠ "" then ["USE `" ++ escape_identifier db ++ "`"] else []
   | none => []) ++
  (match config.charset.bind sanitize_mysql_token with
   | some charset =>
     match config.collation.bind sanitize_mysql_token with
     | some collation => ["SET NAMES " ++ charset ++ " COLLATE " ++ collation]
     | none => ["SET NAMES " ++ charset]
   | none => []) ++
  (match config.timeout_seconds with
   | some t => if t > 0 then ["SET SESSION wait_timeout = " ++ toString t] else []
   | none => []) ++
  (let mode := parse_ssl_mode config.ssl_mode
   if mode = SslMode.Disabled then []
   else ["SET SESSION ssl_mode = '" ++ ssl_mode_to_session_value mode ++ "'"])

/-- The init-statement loop of `MysqlManager::create` (pool.rs): run each
statement in order; a failure is ignored iff the statement starts with
`SET SESSION ssl_mode`, otherwise it aborts creation with that error.
`execResult sql = none` means the statement succeeded. -/
def run_init_sqls (execResult : String → Option String) : List String → Option String
  | [] => none
  | sql :: rest =>
    match execResult sql with
    | none => run_init_sqls execResult rest
    | some err =>
      if startsWithStr sql ("SET SESSION ssl_mode") then run_init_sqls execResult rest
      else some err

/-- Modelled from the spec and the claim wording (refinement target for C8):
the session-init list as §4.2 of the spec describes it, read with the
spec-wide convention that "non-empty" means non-empty after trim. -/
def session_init_spec (config : PoolConfig) : List String :=
  (match config.current_database with
   | some db =>
     if trimStr db = "" then [] else ["USE `" ++ escape_identifier db ++ "`"]
   | none => []) ++
  (match config.charset.bind sanitize_mysql_token, config.collation.bind sanitize_mysql_token with
   | some charset, some collation => ["SET NAMES " ++ charset ++ " COLLATE " ++ collation]
   | some charset, none => ["SET NAMES " ++ charset]
   | none, _ => []) ++
  (match config.timeout_seconds with
   | some t => if 0 < t then ["SET SESSION wait_timeout = " ++ toString t] else []
   | none => []) ++
  (if parse_ssl_mode config.ssl_mode = SslMode.Disabled then []
   else ["SET SESSION ssl_mode = '" ++
     ssl_mode_to_session_value (parse_ssl_mode config.ssl_mode) ++ "'"])

/- ===== import.rs : type coercion ===== -/

/-- `ColumnInfo` from import.rs. -/
structure ColumnInfo where
  name : String
  data_type : String
  nullable : Bool
deriving DecidableEq, Repr

/-- `ColumnType` from import.rs (`String` is spelled `Str` to avoid clashing
with the builtin type). -/
inductive ColumnType where
  | Integer
  | Float
  | Boolean
  | Date
  | DateTime
  | Time
  | Json
  | Str
deriving DecidableEq, Repr

/-- `detect_column_type` from import.rs. -/
def detect_column_type (data_type : String) : ColumnType :=
  match asciiLower data_type with
  | "int" | "integer" | "bigint" | "smallint" | "mediumint" | "tinyint" => ColumnType.Integer
  | "decimal" | "numeric" | "float" | "double" => ColumnType.Float
  | "boolean" | "bool" => ColumnType.Boolean
  | "date" => ColumnType.Date
  | "datetime" | "timestamp" => ColumnType.DateTime
  | "time" => ColumnType.Time
  | "json" => ColumnType.Json
  | _ => ColumnType.Str

/-- The driver's `mysql::Value`, with the float payload kept abstract (`F`):
floating-point contents are irrelevant to the verified claims. -/
inductive MySqlValue (F : Type) where
  | NULL
  | Bytes (bytes : List UInt8)
  | IntV (n : Int)
  | DoubleV (f : F)
  | DateV (y : Nat) (mo : Nat) (d : Nat) (h : Nat) (mi : Nat) (s : Nat) (us : Nat)
  | TimeV (neg : Bool) (d : Nat) (h : Nat) (mi : Nat) (s : Nat) (us : Nat)
deriving DecidableEq, Repr

/-- Oracle bundle for the foreign parsing primitives `parse_value` calls:
`str::parse::<i64>`, `str::parse::<f64>`, and the chrono-based
`parse_date` / `parse_datetime` / `parse_time` helpers of import.rs. -/
structure ValuePrims (F : Type) where
  parseI64 : String → Option Int
  parseF64 : String → Option F
  parseDate : String → Except String (MySqlValue F)
  parseDatetime : String → Except String (MySqlValue F)
  parseTime : String → Except String (MySqlValue F)

/-- `parse_value` from import.rs. -/
def parse_value {F : Type} (prims : ValuePrims F) (raw : String) (column : ColumnInfo) :
    Except String (MySqlValue F) :=
  if trimStr raw = "" then
    if column.nullable then Except.ok MySqlValue.NULL
    else Except.ok (MySqlValue.Bytes [])
  else
    match detect_column_type column.data_type with
    | ColumnType.Integer =>
      match prims.parseI64 raw with
      | some n => Except.ok (MySqlValue.IntV n)
      | none => Except.error ("Invalid integer: " ++ raw)
    | ColumnType.Float =>
      match prims.parseF64 raw with
      | some f => Except.ok (MySqlValue.DoubleV f)
      | none => Except.error ("Invalid float: " ++ raw)
    | ColumnType.Boolean =>
      Except.ok (MySqlValue.IntV (if asciiLower raw = "true" ∨ raw = "1" then 1 else 0))
    | ColumnType.Date => prims.parseDate raw
    | ColumnType.DateTime => prims.parseDatetime raw
    | ColumnType.Time => prims.parseTime raw
    | ColumnType.Json => Except.ok (MySqlValue.Bytes raw.toUTF8.toList)
    | ColumnType.Str => Except.ok (MySqlValue.Bytes raw.toUTF8.toList)

/- ===== import.rs : CSV batch loop ===== -/

/-- The row loop of `do_import_csv` (import.rs), on the successful path,
abstracted over the already-coerced parameter rows `R`.  The accumulator is
`params_batch`; the first component of the result collects the arguments of
the in-loop `exec_batch` calls (flushed when the batch length reaches 500,
then drained), the second is the residual batch at EOF. -/
def import_loop {R : Type} (buf : List R) : List R → List (List R) × List R
  | [] => ([], buf)
  | r :: rs =>
    let buf' := buf ++ [r]
    if 500 ≤ buf'.length then
      let rest := import_loop ([] : List R) rs
      (buf' :: rest.1, rest.2)
    else import_loop buf' rs

/-- The full sequence of `exec_batch` arguments of `do_import_csv`:
the in-loop flushes followed by the residual flush if it is non-empty. -/
def exec_batches {R : Type} (rows : List R) : List (List R) :=
  let p := import_loop ([] : List R) rows
  p.1 ++ (if p.2.isEmpty then [] else [p.2])

/-- Transaction-visible events of `do_import_csv` in source order:
every `exec_batch`, then the final `commit`. -/
inductive ImportEvent (R : Type) where
  | execBatch (batch : List R)
  | commit
deriving DecidableEq, Repr

/-- Event trace of the successful import path of `do_import_csv`. -/
def import_events {R : Type} (rows : List R) : List (ImportEvent R) :=
  (exec_batches rows).map ImportEvent.execBatch ++ [ImportEvent.commit]

/- ===== sqlutils.rs : statement splitter ===== -/

/-- `DbType` from models.rs (the five dialect tokens). -/
inductive DbType where
  | Mysql
  | PostgreSql
  | Sqlite
  | SqlServer
  | Oracle
deriving DecidableEq, Repr

/-- Rust `str::split_whitespace`: maximal runs of non-whitespace characters. -/
def split_ws (l : List Char) : List (List Char) :=
  let p := l.foldr
    (fun c (acc : List (List Char) × List Char) =>
      if c.isWhitespace then
        (if acc.2 = [] then acc.1 else acc.2 :: acc.1, [])
      else (acc.1, c :: acc.2))
    ([], [])
  if p.2 = [] then p.1 else p.2 :: p.1

/-- `find_line_end` from sqlutils.rs: index of the first newline at or after
`start`, or the length of the input. -/
def find_line_end (chars : List Char) (start : Nat) : Nat :=
  start + ((chars.drop start).takeWhile (fun c => c ≠ '\n')).length

/-- The backward scan of `is_line_prefix_whitespace`, on the reversed prefix. -/
def line_prefix_ws_go : List Char → Bool
  | [] => true
  | c :: rest =>
    if c = '\n' then true
    else if c.isWhitespace then line_prefix_ws_go rest
    else false

/-- `is_line_prefix_whitespace` from sqlutils.rs. -/
def is_line_prefix_whitespace (chars : List Char) (index : Nat) : Bool :=
  line_prefix_ws_go (chars.take index).reverse

/-- The forward tail scan of `line_equals`: only whitespace up to the next
newline (or end of input). -/
def line_tail_blank : List Char → Bool
  | [] => true
  | c :: rest =>
    if c = '\n' ∨ c = '\r' then true
    else if c.isWhitespace then line_tail_blank rest
    else false

/-- `line_starts_with` from sqlutils.rs. -/
def line_starts_with (chars : List Char) (index : Nat) (keyword : String) : Bool :=
  is_line_prefix_whitespace chars index &&
  decide (index + keyword.length ≤ chars.length) &&
  eqIgnoreAsciiCase ((chars.drop index).take keyword.length) keyword.data

/-- `line_equals` from sqlutils.rs. -/
def line_equals (chars : List Char) (index : Nat) (keyword : String) : Bool :=
  is_line_prefix_whitespace chars index &&
  decide (index + keyword.length ≤ chars.length) &&
  eqIgnoreAsciiCase ((chars.drop index).take keyword.length) keyword.data &&
  line_tail_blank (chars.drop (index + keyword.length))

/-- `matches_delimiter` from sqlutils.rs. -/
def matches_delimiter (chars : List Char) (index : Nat) (delimiter : List Char) : Bool :=
  decide (index + delimiter.length ≤ chars.length) &&
  decide ((chars.drop index).take delimiter.length = delimiter)

/-- The backslash-escape backward scan of `split_sql_statements_inner`:
an odd number of consecutive backslashes immediately precedes index `i`. -/
def escaped_before (chars : List Char) (i : Nat) : Bool :=
  ((chars.take i).reverse.takeWhile (fun c => c = '\\')).length % 2 = 1

/-- Mutable loop state of `split_sql_statements_inner`. -/
structure SplitState where
  statements : List String
  current : List Char
  delimiter : List Char
  in_string : Bool
  string_char : Char
  in_block_comment : Bool
  in_line_comment : Bool
  block_depth : Int
  current_word : List Char
deriving DecidableEq, Repr

/-- The keyword bookkeeping of the splitter: flush `current_word` and adjust
`block_depth` for BEGIN / CASE / END (floored at zero). -/
def flush_word (s : SplitState) : SplitState :=
  if s.current_word.isEmpty then s
  else
    let word := asciiUpperList s.current_word
    let s' := { s with current_word := [] }
    if word = ("BEGIN").data ∨ word = ("CASE").data then
      { s' with block_depth := s'.block_depth + 1 }
    else if word = ("END").data then
      if s'.block_depth > 0 then { s' with block_depth := s'.block_depth - 1 } else s'
    else s'

/-- One word-tracking step: accumulate alphanumeric/underscore characters,
otherwise flush the pending word (mirrors the `is_alphanumeric` branch;
the source uses Unicode alphanumerics, the verified scripts are ASCII). -/
def word_step (s : SplitState) (ch : Char) : SplitState :=
  if ch.isAlphanum ∨ ch = '_' then { s with current_word := s.current_word ++ [ch] }
  else flush_word s

/-- Final flush of `split_sql_statements_inner`: trailing text is emitted
unless it starts (case-insensitively) with `delimiter`. -/
def split_finish (s : SplitState) : List String :=
  let last := trimChars s.current
  if last ≠ [] ∧ ¬ startsWithStr (asciiLower (String.mk last)) ("delimiter") then
    s.statements ++ [String.mk last]
  else s.statements

/-- Continuation of the loop body after the DELIMITER-command check:
GO / slash terminators, keyword bookkeeping, and the delimiter check.
Returns the updated state and the next loop index. -/
def split_code_rest (chars : List Char) (support_go support_slash : Bool)
    (i : Nat) (ch : Char) (s1 : SplitState) : SplitState × Nat :=
  if support_go && line_equals chars i ("GO") then
    let stmt := trimChars s1.current
    let s2 :=
      if stmt ≠ [] then
        { s1 with statements := s1.statements ++ [String.mk stmt], current := [] }
      else s1
    (s2, i + 2)
  else if support_slash && line_equals chars i ("/") then
    let stmt := trimChars s1.current
    let s2 :=
      if stmt ≠ [] then
        { s1 with statements := s1.statements ++ [String.mk stmt], current := [] }
      else s1
    (s2, i + 1)
  else
    let s2 := word_step s1 ch
    if matches_delimiter chars i s2.delimiter ∧ s2.block_depth ≤ 0 then
      let stmt := trimChars s2.current
      ({ s2 with
          statements := s2.statements ++ (if stmt = [] then [] else [String.mk stmt])
          current := []
          block_depth := 0 },
        i + s2.delimiter.length)
    else
      ({ s2 with current := s2.current ++ [ch] }, i + 1)

/-- The delimiter/GO/slash/keyword phase of the loop body, entered with the
(possibly just updated) state; it only acts when the state is outside
strings and comments, and otherwise appends the character. -/
def split_code (chars : List Char) (support_go support_slash support_delimiter_cmd : Bool)
    (i : Nat) (ch : Char) (s1 : SplitState) : SplitState × Nat :=
  if !s1.in_string && !s1.in_block_comment && !s1.in_line_comment then
    if support_delimiter_cmd && line_starts_with chars i ("DELIMITER") then
      let line_end := find_line_end chars i
      let line := (chars.drop i).take (line_end - i)
      let parts := split_ws line
      if 2 ≤ parts.length then
        ({ s1 with delimiter := parts.getD 1 [], current := [] },
          if line_end = 0 then 1 else line_end)
      else split_code_rest chars support_go support_slash i ch s1
    else split_code_rest chars support_go support_slash i ch s1
  else
    ({ s1 with current := s1.current ++ [ch] }, i + 1)

/-- One iteration of the character loop of `split_sql_statements_inner`:
string/comment transitions, then the code-mode phase.  Returns the updated
state and the next loop index. -/
def split_step (chars : List Char) (support_go support_slash support_delimiter_cmd : Bool)
    (i : Nat) (s : SplitState) : SplitState × Nat :=
  let ch := chars.getD i ' '
  let next_ch := if i + 1 < chars.length then chars.getD (i + 1) ' ' else Char.ofNat 0
  if !s.in_block_comment && !s.in_line_comment && !s.in_string then
    let s1 :=
      if ch = '\'' ∨ ch = '"' ∨ ch = Char.ofNat 96 then
        { s with in_string := true, string_char := ch }
      else if ch = '-' ∧ next_ch = '-' then { s with in_line_comment := true }
      else if ch = '/' ∧ next_ch = '*' then { s with in_block_comment := true }
      else if ch = '#' ∧ support_delimiter_cmd then { s with in_line_comment := true }
      else s
    split_code chars support_go support_slash support_delimiter_cmd i ch s1
  else if s.in_string then
    if ch = s.string_char ∧ ¬ escaped_before chars i then
      if ch = '\'' ∧ next_ch = '\'' then
        ({ s with current := s.current ++ [ch, ch] }, i + 2)
      else
        split_code chars support_go support_slash support_delimiter_cmd i ch
          { s with in_string := false }
    else
      ({ s with current := s.current ++ [ch] }, i + 1)
  else if s.in_block_comment then
    if ch = '*' ∧ next_ch = '/' then
      ({ s with in_block_comment := false, current := s.current ++ [ch, next_ch] }, i + 2)
    else
      ({ s with current := s.current ++ [ch] }, i + 1)
  else
    if ch = '\n' then
      split_code chars support_go support_slash support_delimiter_cmd i ch
        { s with in_line_comment := false }
    else
      ({ s with current := s.current ++ [ch] }, i + 1)

/-- The character loop of `split_sql_statements_inner` (sqlutils.rs).  The
loop index `i` advances by at least one per iteration; `fuel` bounds the
remaining iterations (it starts at `chars.length + 1`, which the index
monotonicity makes unreachable). -/
def split_go (chars : List Char) (support_go support_slash support_delimiter_cmd : Bool) :
    Nat → Nat → SplitState → List String
  | 0, _, s => split_finish s
  | fuel + 1, i, s =>
    if i < chars.length then
      let p := split_step chars support_go support_slash support_delimiter_cmd i s
      split_go chars support_go support_slash support_delimiter_cmd fuel p.2 p.1
    else split_finish s

/-- `split_sql_statements_inner` from sqlutils.rs. -/
def split_sql_statements_inner (sql : String) (db_type : String) : List String :=
  if trimStr sql = "" then []
  else
    let chars := sql.data
    split_go chars
      (eqIgnoreAsciiCase db_type.data ("SQL_SERVER").data)
      (eqIgnoreAsciiCase db_type.data ("ORACLE").data)
      (eqIgnoreAsciiCase db_type.data ("MYSQL").data)
      (chars.length + 1) 0
      { statements := []
        current := []
        delimiter := (";").data
        in_string := false
        string_char := Char.ofNat 0
        in_block_comment := false
        in_line_comment := false
        block_depth := 0
        current_word := [] }

/-- `split_sql_statements` from sqlutils.rs: dialect dispatch. -/
def split_sql_statements (sql : String) (db_type : DbType) : List String :=
  split_sql_statements_inner sql
    (match db_type with
     | DbType.Mysql => "MYSQL"
     | DbType.PostgreSql => "POSTGRESQL"
     | DbType.Sqlite => "SQLITE"
     | DbType.SqlServer => "SQL_SERVER"
     | DbType.Oracle => "ORACLE")

/- ===== pool.rs : with_connection (reconnect engine) ===== -/

/-- Oracles for the foreign effects of `ConnectionPool::with_connection`:
`queryDrop c sql` is `conn.query_drop(sql)` on raw connection `c` (`none` =
success), `acquire k` is the k-th `pool.timeout_get` of the call, and
`action k c` is the k-th invocation of the user action, run on `c`.  Raw
connections are identified by `Nat`. -/
structure Driver (T : Type) where
  queryDrop : Nat → String → Option String
  acquire : Nat → Except String Nat
  action : Nat → Nat → Except String T

/-- Observable outcome of one `with_connection` call on one handle:
the returned result, the final map entry under that handle id, whether the
pre-action reconnect path ran, the re-evaluated safety gate of the
post-action path (when reached), the action invocations `(conn, result)`
in order, and the results of the `pool.timeout_get` calls in order. -/
structure WCOut (T : Type) where
  result : Except String T
  entry : Option ConnectionState
  preReconnect : Bool
  retryGate : Option (Bool × Option String)
  acts : List (Nat × Except String T)
  acquires : List (Except String Nat)

/-- `is_connection_lost_error` from pool.rs. -/
def is_connection_lost_error (message : String) : Bool :=
  let normalized := asciiLower message
  containsSub normalized "server has gone away" ||
  containsSub normalized "lost connection" ||
  containsSub normalized "unexpected eof" ||
  containsSub normalized "timed out" ||
  containsSub normalized "timeout" ||
  containsSub normalized "broken pipe" ||
  containsSub normalized "connection reset" ||
  containsSub normalized "connection was killed" ||
  containsSub normalized "io error" ||
  containsSub normalized "os error 10053" ||
  containsSub normalized "os error 10054"

/-- The reconnect sequence shared by both reconnect sites of
`with_connection`: restore the `USE` context on the newly acquired raw
connection, then build the replacement `ConnectionState` (installed under
the same handle id by the caller). -/
def reconnect_install {T : Type} (d : Driver T) (auto_reconnect : Bool) (now : Nat)
    (current_db : Option String) (new_conn : Nat) : Except String ConnectionState :=
  match current_db with
  | some db =>
    match d.queryDrop new_conn ("USE `" ++ escape_identifier db ++ "`") with
    | some err =>
      Except.error ("Reconnected but failed to restore database context '" ++ db ++ "': " ++ err)
    | none => Except.ok (ConnectionState.new new_conn (some db) auto_reconnect now)
  | none => Except.ok (ConnectionState.new new_conn none auto_reconnect now)

/-- Lines 644-720 of pool.rs: run the action, and on a connection-lost
failure re-evaluate the safety gate, reconnect at most once more, record
use, and retry.  `st1` is the map entry when the action phase starts,
`acqIdx` the index of the next `timeout_get`, `pre` whether the pre-action
reconnect already ran, `acqs` the acquires so far. -/
def wc_action_phase {T : Type} (d : Driver T) (auto_reconnect : Bool) (now : Nat)
    (current_db : Option String) (st1 : ConnectionState) (acqIdx : Nat) (pre : Bool)
    (acqs : List (Except String Nat)) : WCOut T :=
  match d.action 0 st1.conn with
  | Except.ok r =>
    { result := Except.ok r, entry := some st1, preReconnect := pre, retryGate := none,
      acts := [(st1.conn, Except.ok r)], acquires := acqs }
  | Except.error first_error =>
    if !is_connection_lost_error first_error then
      { result := Except.error first_error, entry := some st1, preReconnect := pre,
        retryGate := none, acts := [(st1.conn, Except.error first_error)], acquires := acqs }
    else
      let gate2 := st1.can_safely_reconnect
      if !gate2.1 then
        let reason := gate2.2.getD "Unknown safety check failure"
        { result := Except.error ("Connection lost and auto-reconnect is disabled: " ++ reason ++
            ". Original error: " ++ first_error ++
            ". Please check your connection and retry manually.")
          entry := some st1, preReconnect := pre, retryGate := some gate2,
          acts := [(st1.conn, Except.error first_error)], acquires := acqs }
      else
        match d.acquire acqIdx with
        | Except.error e =>
          { result := Except.error ("Connection was lost and reconnection failed: " ++
              first_error ++ "; reconnect error: " ++ e)
            entry := none, preReconnect := pre, retryGate := some gate2,
            acts := [(st1.conn, Except.error first_error)], acquires := acqs ++ [Except.error e] }
        | Except.ok c2 =>
          match reconnect_install d auto_reconnect now current_db c2 with
          | Except.error msg =>
            { result := Except.error msg, entry := none, preReconnect := pre,
              retryGate := some gate2, acts := [(st1.conn, Except.error first_error)],
              acquires := acqs ++ [Except.ok c2] }
          | Except.ok st2 =>
            let st2' := st2.record_use now
            match d.action 1 st2'.conn with
            | Except.ok r =>
              { result := Except.ok r, entry := some st2', preReconnect := pre,
                retryGate := some gate2,
                acts := [(st1.conn, Except.error first_error), (st2'.conn, Except.ok r)],
                acquires := acqs ++ [Except.ok c2] }
            | Except.error retry_err =>
              { result := Except.error ("Connection was reset after error: " ++ first_error ++
                  "; retry failed: " ++ retry_err)
                entry := some st2', preReconnect := pre, retryGate := some gate2,
                acts := [(st1.conn, Except.error first_error),
                  (st2'.conn, Except.error retry_err)]
                acquires := acqs ++ [Except.ok c2] }

/-- `ConnectionPool::with_connection` (pool.rs, lines 573-720), for one
handle whose map entry is `entry0`; `auto_reconnect` is the pool-wide flag
copied into every replacement `ConnectionState`, `now` the sampled clock.
The model is the sequential execution the source's per-entry locking
guarantees. -/
def with_connection {T : Type} (d : Driver T) (auto_reconnect : Bool) (now : Nat)
    (entry0 : Option ConnectionState) : WCOut T :=
  match entry0 with
  | none =>
    { result := Except.error "Connection not found", entry := none, preReconnect := false,
      retryGate := none, acts := [], acquires := [] }
  | some st0 =>
    let current_db := st0.current_database
    let gate := st0.can_safely_reconnect
    match d.queryDrop st0.conn "SELECT 1" with
    | none => wc_action_phase d auto_reconnect now current_db st0 0 false []
    | some probe_err =>
      if !is_connection_lost_error probe_err then
        { result := Except.error ("Connection health check failed: " ++ probe_err),
          entry := some st0, preReconnect := false, retryGate := none, acts := [],
          acquires := [] }
      else if !gate.1 then
        let reason := gate.2.getD "Unknown safety check failure"
        { result := Except.error ("Connection lost and auto-reconnect is disabled: " ++ reason ++
            ". Please check your connection and retry manually.")
          entry := some st0, preReconnect := false, retryGate := none, acts := [], acquires := [] }
      else
        match d.acquire 0 with
        | Except.error e =>
          { result := Except.error ("Connection was stale and reconnection failed: " ++ e),
            entry := none, preReconnect := true, retryGate := none, acts := [],
            acquires := [Except.error e] }
        | Except.ok c1 =>
          match reconnect_install d auto_reconnect now current_db c1 with
          | Except.error msg =>
            { result := Except.error msg, entry := none, preReconnect := true, retryGate := none,
              acts := [], acquires := [Except.ok c1] }
          | Except.ok st1 =>
            wc_action_phase d auto_reconnect now current_db st1 1 true [Except.ok c1]

/- ===== concrete scenarios used by witness/counterexample theorems ===== -/

/-- Placeholder `ConnectionState` used only as an `Option.getD` default. -/
def dummyState : ConnectionState := ConnectionState.new 0 none false 0

/-- Error payload of an `Except`, with `""` for successes. -/
def except_err {T : Type} : Except String T → String
  | Except.error e => e
  | Except.ok _ => ""

/-- Trivial parsing oracles (the empty-input claim never reaches them). -/
def trivPrims : ValuePrims Unit :=
  { parseI64 := fun _ => none
    parseF64 := fun _ => none
    parseDate := fun s => Except.error s
    parseDatetime := fun s => Except.error s
    parseTime := fun s => Except.error s }

/-- A checked-out state on raw connection 1 with database `sales`. -/
def wcSt1 : ConnectionState :=
  { conn := 1, current_database := some "sales", created_at := 0, use_count := 3,
    last_used_at := 5, in_transaction := 0, has_temporary_tables := 0, auto_reconnect := true }

/-- Same state with auto-reconnect off. -/
def wcSt2 : ConnectionState :=
  { wcSt1 with auto_reconnect := false }

/-- Driver whose probe and `USE` succeed, whose pool hands out raw
connection 7, and whose action fails once with a connection-lost message
and then succeeds with 42. -/
def wcDriver1 : Driver Nat :=
  { queryDrop := fun _ _ => none
    acquire := fun _ => Except.ok 7
    action := fun k _ => if k = 0 then Except.error "server has gone away" else Except.ok 42 }

/-- Fresh state on raw connection 1 with zero usage counters. -/
def cxSt : ConnectionState :=
  { conn := 1, current_database := none, created_at := 0, use_count := 0, last_used_at := 0,
    in_transaction := 0, has_temporary_tables := 0, auto_reconnect := true }

/-- Driver whose probe succeeds and whose action succeeds immediately. -/
def cxDriver : Driver Nat :=
  { queryDrop := fun _ _ => none
    acquire := fun _ => Except.ok 9
    action := fun _ _ => Except.ok 7 }

/- ===== shared helper lemmas ===== -/

theorem data_substr_left (a b : String) : a.data <:+: (a ++ b).data :=
  ⟨[], b.data, by simp [String.data_append]⟩

theorem data_substr_mid (a b c : String) : b.data <:+: (a ++ b ++ c).data :=
  ⟨a.data, c.data, by simp [String.data_append]⟩

theorem csr_eq_of_not_auto (s : ConnectionState) (h : s.auto_reconnect = false) :
    s.can_safely_reconnect = (false, some "Auto-reconnect is disabled for this connection") := by
  simp [ConnectionState.can_safely_reconnect, h]

theorem csr_eq_of_ok (s : ConnectionState) (h : s.auto_reconnect = true)
    (h2 : s.in_transaction = 0) (h3 : s.has_temporary_tables = 0) :
    s.can_safely_reconnect = (true, none) := by
  simp [ConnectionState.can_safely_reconnect, h, h2, h3]

theorem csr_fst_true (s : ConnectionState) (h : (s.can_safely_reconnect).1 = true) :
    s.can_safely_reconnect = (true, none) := by
  unfold ConnectionState.can_safely_reconnect at h ⊢
  split at h
  · simp_all
  · split at h
    · simp_all
    · split at h
      · simp_all
      · simp_all

/- ===== claim theorems ===== -/

/-- C10: `parse_ssl_mode` is total by construction (it returns an `SslMode`,
never an error), and maps every input whose normalisation (trim, ASCII
lowercase, underscore to dash) is none of `disabled`, `required`,
`verify-ca`, `verify-identity` — including the absent value — to
`Preferred`. -/
theorem claim_C10_parse_ssl_mode_default (value : Option String) :
    (normalizeSslModeInput value ∉
        (["disabled", "required", "verify-ca", "verify-identity"] : List String) →
      parse_ssl_mode value = SslMode.Preferred)
    ∧ parse_ssl_mode none = SslMode.Preferred := by
  constructor
  · intro h
    simp only [List.mem_cons, List.not_mem_nil, or_false, not_or] at h
    obtain ⟨h1, h2, h3, h4⟩ := h
    unfold parse_ssl_mode
    split
    · exact absurd (by assumption) h1
    · exact absurd (by assumption) h2
    · exact absurd (by assumption) h3
    · exact absurd (by assumption) h4
    · rfl
  · decide

/-- C10 witness: the garbage input `" SsL_JUNK "` normalises to
`ssl-junk` and parses as `Preferred`. -/
theorem claim_C10_witness :
    normalizeSslModeInput (some " SsL_JUNK ") ∉
      (["disabled", "required", "verify-ca", "verify-identity"] : List String) ∧
    parse_ssl_mode (some " SsL_JUNK ") = SslMode.Preferred :=
  ⟨by decide, (claim_C10_parse_ssl_mode_default (some " SsL_JUNK ")).1 (by decide)⟩

/-- C9 counterexample: with mode `disabled` and only a client certificate
(no key) supplied, `apply_ssl_mode_to_builder` succeeds — the cert/key
XOR is not checked for the Disabled (or Preferred) modes, so the claim's
"hard error exactly when … exactly one of client-cert and client-key is
supplied" is false as stated. -/
theorem claim_C9_counterexample :
    apply_ssl_mode_to_builder {}
      { ssl_mode := some "disabled", ssl_ca_path := none,
        ssl_cert_path := some "client-cert.pem", ssl_key_path := none } =
      Except.ok (OptsBuilder.set_ssl_opts {} none) := by
  decide

/-- C9 as amended: the cert/key XOR is a hard error only in the TLS modes
Required / VerifyCa / VerifyIdentity; within those, `apply_ssl_mode_to_builder`
errors exactly when a Verify mode lacks a CA path or exactly one of
client-cert/client-key is supplied, and for Required (with matching
cert/key presence) it succeeds with hostname validation skipped, the CA
path passed through, and invalid certificates accepted iff no CA was
supplied. -/
theorem claim_C9_ssl_mode_errors (b : OptsBuilder) (p : ConnectionProfile) :
    ((apply_ssl_mode_to_builder b p).isOk = false ↔
      (((parse_ssl_mode p.ssl_mode = SslMode.VerifyCa ∨
          parse_ssl_mode p.ssl_mode = SslMode.VerifyIdentity) ∧
        non_empty p.ssl_ca_path = none) ∨
      ((parse_ssl_mode p.ssl_mode = SslMode.Required ∨
          parse_ssl_mode p.ssl_mode = SslMode.VerifyCa ∨
          parse_ssl_mode p.ssl_mode = SslMode.VerifyIdentity) ∧
        (non_empty p.ssl_cert_path).isSome ≠ (non_empty p.ssl_key_path).isSome)))
    ∧ (parse_ssl_mode p.ssl_mode = SslMode.Required →
      (non_empty p.ssl_cert_path).isSome = (non_empty p.ssl_key_path).isSome →
      ∃ o : SslOpts, apply_ssl_mode_to_builder b p = Except.ok (b.set_ssl_opts (some o)) ∧
        o.skip_domain_validation = true ∧
        o.root_cert_path = non_empty p.ssl_ca_path ∧
        o.accept_invalid_certs = (non_empty p.ssl_ca_path).isNone) := by
  constructor
  · unfold apply_ssl_mode_to_builder
    cases hm : parse_ssl_mode p.ssl_mode <;>
      simp only [] <;>
      by_cases hca : non_empty p.ssl_ca_path = none <;>
      by_cases hxor : (non_empty p.ssl_cert_path).isSome = (non_empty p.ssl_key_path).isSome <;>
      simp_all [Except.isOk, Except.toBool]
  · intro hm hk
    unfold apply_ssl_mode_to_builder
    rw [hm]
    simp only [hk]
    cases hca : non_empty p.ssl_ca_path <;>
      cases hc : non_empty p.ssl_cert_path <;>
      cases hkk : non_empty p.ssl_key_path <;>
      simp_all [SslOpts.with_danger_skip_domain_validation,
        SslOpts.with_danger_accept_invalid_certs, SslOpts.with_root_cert_path,
        SslOpts.with_client_identity] <;>
      exact ⟨_, rfl, rfl, rfl, rfl⟩

/-- C9 witness: mode Required with no CA and no client identity succeeds
with invalid certs accepted and domain validation skipped. -/
theorem claim_C9_witness :
    ∃ o : SslOpts,
      apply_ssl_mode_to_builder {} ({ ssl_mode := some "required" } : ConnectionProfile) =
        Except.ok (OptsBuilder.set_ssl_opts {} (some o)) ∧
      o.skip_domain_validation = true ∧
      o.root_cert_path = non_empty (none : Option String) ∧
      o.accept_invalid_certs = (non_empty (none : Option String)).isNone :=
  (claim_C9_ssl_mode_errors {} { ssl_mode := some "required" }).2 (by decide) (by decide)

/-- C2: `can_safely_reconnect` evaluates auto_reconnect, then transaction
nesting, then temporary tables, and returns the first blocking reason:
"Auto-reconnect is disabled …" when the flag is off, a reason containing
the nesting level when a transaction is active, a reason containing the
count when temporary tables exist, and `(true, none)` otherwise. -/
theorem claim_C2_can_safely_reconnect (s : ConnectionState) :
    (s.auto_reconnect = false →
      s.can_safely_reconnect = (false, some "Auto-reconnect is disabled for this connection") ∧
      ("Auto-reconnect is disabled").data <:+: ((s.can_safely_reconnect).2.getD "").data)
    ∧ (s.auto_reconnect = true → 0 < s.in_transaction →
      (s.can_safely_reconnect).1 = false ∧
      ("Active transaction detected (nesting level: ").data <:+:
        ((s.can_safely_reconnect).2.getD "").data ∧
      (toString s.in_transaction).data <:+: ((s.can_safely_reconnect).2.getD "").data)
    ∧ (s.auto_reconnect = true → s.in_transaction = 0 → 0 < s.has_temporary_tables →
      (s.can_safely_reconnect).1 = false ∧
      ("Temporary tables exist (count: ").data <:+: ((s.can_safely_reconnect).2.getD "").data ∧
      (toString s.has_temporary_tables).data <:+: ((s.can_safely_reconnect).2.getD "").data)
    ∧ (s.auto_reconnect = true → s.in_transaction = 0 → s.has_temporary_tables = 0 →
      s.can_safely_reconnect = (true, none)) := by
  refine ⟨?_, ?_, ?_, ?_⟩
  · intro h
    refine ⟨csr_eq_of_not_auto s h, ?_⟩
    rw [csr_eq_of_not_auto s h]
    decide
  · intro h ht
    have he : s.can_safely_reconnect =
        (false, some ("Active transaction detected (nesting level: " ++
          toString s.in_transaction ++
          "). Auto-reconnect disabled to prevent data inconsistency.")) := by
      simp [ConnectionState.can_safely_reconnect, h, ht]
    rw [he]
    refine ⟨rfl, ?_, ?_⟩
    · exact data_substr_left _ _
    · exact data_substr_mid _ _ _
  · intro h ht htmp
    have he : s.can_safely_reconnect =
        (false, some ("Temporary tables exist (count: " ++
          toString s.has_temporary_tables ++
          "). Auto-reconnect disabled to prevent data loss.")) := by
      simp [ConnectionState.can_safely_reconnect, h, ht, htmp]
    rw [he]
    refine ⟨rfl, ?_, ?_⟩
    · exact data_substr_left _ _
    · exact data_substr_mid _ _ _
  · exact csr_eq_of_ok s

/-- C2 witness: a state in a transaction of nesting level 1 is blocked with
a reason containing `1`, matching the spec's example message. -/
theorem claim_C2_witness :
    (ConnectionState.can_safely_reconnect
      { conn := 0, current_database := none, created_at := 0, use_count := 0, last_used_at := 0,
        in_transaction := 1, has_temporary_tables := 0, auto_reconnect := true }).1 = false ∧
    ("Active transaction detected (nesting level: 1)").data <:+:
      ((ConnectionState.can_safely_reconnect
        { conn := 0, current_database := none, created_at := 0, use_count := 0, last_used_at := 0,
          in_transaction := 1, has_temporary_tables := 0,
          auto_reconnect := true }).2.getD "").data := by
  have h := (claim_C2_can_safely_reconnect
    { conn := 0, current_database := none, created_at := 0, use_count := 0, last_used_at := 0,
      in_transaction := 1, has_temporary_tables := 0, auto_reconnect := true }).2.1
    rfl (by decide)
  exact ⟨h.1, by decide⟩

/-- C7: an imported field that is empty after trimming coerces to SQL NULL
for a nullable column and to an empty byte string otherwise, regardless of
the declared data type (the type dispatch of `parse_value` is never
reached). -/
theorem claim_C7_parse_value_empty {F : Type} (prims : ValuePrims F) (raw : String)
    (column : ColumnInfo) (h : trimStr raw = "") :
    parse_value prims raw column =
      Except.ok (if column.nullable then MySqlValue.NULL else MySqlValue.Bytes []) := by
  unfold parse_value
  rw [if_pos h]
  by_cases hn : column.nullable <;> simp [hn]

/-- C7 witness: a whitespace-only field is NULL for a nullable TEXT column
and the empty byte string for a NOT NULL INT column. -/
theorem claim_C7_witness :
    parse_value trivPrims "   " { name := "note", data_type := "text", nullable := true } =
      Except.ok MySqlValue.NULL ∧
    parse_value trivPrims " " { name := "id", data_type := "int", nullable := false } =
      Except.ok (MySqlValue.Bytes []) := by
  constructor
  · have h := claim_C7_parse_value_empty trivPrims "   "
      { name := "note", data_type := "text", nullable := true } (by decide)
    simpa using h
  · have h := claim_C7_parse_value_empty trivPrims " "
      { name := "id", data_type := "int", nullable := false } (by decide)
    simpa using h

/-- C8: the session-init list is exactly USE (when the database is
non-blank, backticks doubled), then SET NAMES with whitelisted tokens
(unsafe tokens silently omitted), then the wait_timeout statement when
positive, then the ssl_mode statement for non-Disabled modes; and during
raw-connection creation the statements run in order with a failure fatal
iff the failing statement does not start with `SET SESSION ssl_mode`. -/
theorem claim_C8_session_init :
    (∀ config : PoolConfig, build_session_init_sql config = session_init_spec config)
    ∧ (∀ (execResult : String → Option String) (sqls : List String),
        run_init_sqls execResult sqls = none ↔
          ∀ sql ∈ sqls,
            startsWithStr sql ("SET SESSION ssl_mode") = false → execResult sql = none) := by
  constructor
  · intro config
    unfold build_session_init_sql session_init_spec
    simp only [ite_not]
    rcases hcs : config.charset.bind sanitize_mysql_token with _ | c <;>
      rcases hco : config.collation.bind sanitize_mysql_token with _ | co <;>
      simp [hcs, hco]
  · intro execResult sqls
    induction sqls with
    | nil => simp [run_init_sqls]
    | cons sql rest ih =>
      unfold run_init_sqls
      cases hex : execResult sql with
      | none => simp [hex, ih]
      | some err =>
        by_cases hs : startsWithStr sql ("SET SESSION ssl_mode") = true
        · simp [hex, hs, ih]
        · simp only [Bool.not_eq_true] at hs
          simp [hex, hs]

/-- C8 witness: a full configuration produces the four statements in
order, and running them with an executor that fails only the ssl_mode
statement still succeeds. -/
theorem claim_C8_witness :
    build_session_init_sql
      { charset := some "utf8mb4", collation := some "utf8mb4_bin",
        timeout_seconds := some 28800, ssl_mode := some "required",
        current_database := some "sa`les" } =
      ["USE `sa``les`", "SET NAMES utf8mb4 COLLATE utf8mb4_bin",
        "SET SESSION wait_timeout = 28800", "SET SESSION ssl_mode = 'REQUIRED'"] ∧
    session_init_spec
      { charset := some "utf8mb4", collation := some "utf8mb4_bin",
        timeout_seconds := some 28800, ssl_mode := some "required",
        current_database := some "sa`les" } =
      ["USE `sa``les`", "SET NAMES utf8mb4 COLLATE utf8mb4_bin",
        "SET SESSION wait_timeout = 28800", "SET SESSION ssl_mode = 'REQUIRED'"] ∧
    run_init_sqls
      (fun sql => if startsWithStr sql ("SET SESSION ssl_mode") then some "unsupported" else none)
      ["USE `sa``les`", "SET NAMES utf8mb4 COLLATE utf8mb4_bin",
        "SET SESSION wait_timeout = 28800", "SET SESSION ssl_mode = 'REQUIRED'"] = none := by
  refine ⟨by decide, ?_, ?_⟩
  · rw [← claim_C8_session_init.1]
    decide
  · refine (claim_C8_session_init.2 _ _).mpr ?_
    intro sql hmem hss
    simp [hss]

/-- C5: on the MYSQL dialect, the DELIMITER script splits into exactly the
routine body and the trailing SELECT: the DELIMITER lines are not emitted,
the semicolons inside BEGIN…END do not terminate (delimiter is `$$` and
block depth is positive), and the `$$` after END terminates the routine. -/
theorem claim_C5_mysql_delimiter_split :
    split_sql_statements
      "DELIMITER $$\nCREATE PROCEDURE p() BEGIN SELECT 1; SELECT 2; END$$\nDELIMITER ;\nSELECT 3;"
      DbType.Mysql =
      ["CREATE PROCEDURE p() BEGIN SELECT 1; SELECT 2; END", "SELECT 3"] := by
  decide

/-- Every in-loop flush of `do_import_csv` carries exactly 500 rows, the
residual buffer stays under 500, and together they carry every row in
order. -/
theorem import_loop_spec {R : Type} (rows : List R) :
    ∀ buf : List R, buf.length < 500 →
      (∀ b ∈ (import_loop buf rows).1, b.length = 500) ∧
      (import_loop buf rows).2.length < 500 ∧
      (import_loop buf rows).1.flatten ++ (import_loop buf rows).2 = buf ++ rows := by
  induction rows with
  | nil =>
    intro buf hbuf
    simp [import_loop, hbuf]
  | cons r rs ih =>
    intro buf hbuf
    simp only [import_loop]
    by_cases h5 : 500 ≤ (buf ++ [r]).length
    · have hlen : (buf ++ [r]).length = 500 := by
        simp only [List.length_append, List.length_singleton] at h5 ⊢
        omega
      obtain ⟨ih1, ih2, ih3⟩ := ih ([] : List R) (by simp)
      simp only [if_pos h5]
      refine ⟨?_, ih2, ?_⟩
      · intro b hb
        rcases List.mem_cons.mp hb with hb | hb
        · rw [hb]; exact hlen
        · exact ih1 b hb
      · simp only [List.flatten_cons, List.append_assoc, ih3]
        simp
    · have hbuf' : (buf ++ [r]).length < 500 := by
        simp only [List.length_append, List.length_singleton] at h5 ⊢
        omega
      obtain ⟨ih1, ih2, ih3⟩ := ih (buf ++ [r]) hbuf'
      simp only [if_neg h5]
      refine ⟨ih1, ih2, ?_⟩
      rw [ih3]
      simp

set_option maxRecDepth 4000 in
/-- C6: the CSV import flushes a batch via `exec_batch` exactly when it
reaches 500 rows (every non-final batch has exactly 500 rows), flushes the
non-empty residual once after EOF, loses and reorders nothing, and commits
as the unique final event; a 501-row CSV yields exactly the two batches
500 and 1. -/
theorem claim_C6_csv_batching :
    (∀ (R : Type) (rows : List R),
      (∀ b ∈ (exec_batches rows).dropLast, b.length = 500) ∧
      (∀ b ∈ exec_batches rows, b ≠ [] ∧ b.length ≤ 500) ∧
      (exec_batches rows).flatten = rows ∧
      (import_events rows).getLast? = some ImportEvent.commit ∧
      (∀ e ∈ (import_events rows).dropLast, e ≠ ImportEvent.commit))
    ∧ exec_batches (List.replicate 501 (0 : Nat)) =
        [List.replicate 500 (0 : Nat), [(0 : Nat)]] := by
  constructor
  · intro R rows
    obtain ⟨h500, hres, hjoin⟩ := import_loop_spec rows ([] : List R) (by simp)
    have hjoin' : (import_loop ([] : List R) rows).1.flatten ++ (import_loop ([] : List R) rows).2
        = rows := by simpa using hjoin
    by_cases he : (import_loop ([] : List R) rows).2 = []
    · have hE : exec_batches rows = (import_loop ([] : List R) rows).1 := by
        simp [exec_batches, he]
      have hEv : import_events rows =
          (exec_batches rows).map ImportEvent.execBatch ++ [ImportEvent.commit] := rfl
      refine ⟨?_, ?_, ?_, ?_, ?_⟩
      · intro b hb
        rw [hE] at hb
        exact h500 b (List.dropLast_subset _ hb)
      · intro b hb
        rw [hE] at hb
        have hl := h500 b hb
        refine ⟨?_, by omega⟩
        intro hnil
        rw [hnil] at hl
        simp at hl
      · rw [hE]
        simpa [he] using hjoin'
      · rw [hEv]
        simp
      · intro e hee
        rw [hEv, List.dropLast_concat] at hee
        rcases List.mem_map.mp hee with ⟨b, -, hb⟩
        simp [← hb]
    · have hE : exec_batches rows =
          (import_loop ([] : List R) rows).1 ++ [(import_loop ([] : List R) rows).2] := by
        simp [exec_batches, he]
      have hEv : import_events rows =
          (exec_batches rows).map ImportEvent.execBatch ++ [ImportEvent.commit] := rfl
      refine ⟨?_, ?_, ?_, ?_, ?_⟩
      · intro b hb
        rw [hE, List.dropLast_concat] at hb
        exact h500 b hb
      · intro b hb
        rw [hE] at hb
        rcases List.mem_append.mp hb with hb | hb
        · have hl := h500 b hb
          refine ⟨?_, by omega⟩
          intro hnil
          rw [hnil] at hl
          simp at hl
        · have hb' : b = (import_loop ([] : List R) rows).2 := by simpa using hb
          rw [hb']
          exact ⟨he, by omega⟩
      · rw [hE]
        simpa using hjoin'
      · rw [hEv]
        simp
      · intro e hee
        rw [hEv, List.dropLast_concat] at hee
        rcases List.mem_map.mp hee with ⟨b, -, hb⟩
        simp [← hb]
  · decide

set_option maxRecDepth 4000 in
/-- C6 witness: for the 501-row input, the first flushed batch (a member
of the non-final batches) has exactly 500 rows, and the two flushes carry
all 501 rows. -/
theorem claim_C6_witness :
    (List.replicate 500 (0 : Nat)).length = 500 ∧
    (exec_batches (List.replicate 501 (0 : Nat))).flatten = List.replicate 501 (0 : Nat) := by
  constructor
  · exact (claim_C6_csv_batching.1 Nat (List.replicate 501 0)).1
      (List.replicate 500 0) (by decide)
  · exact (claim_C6_csv_batching.1 Nat (List.replicate 501 0)).2.2.1

/-- Successful `reconnect_install` results: the installed state is the
fresh `ConnectionState` on the acquired connection with the snapshot
database, and when a database was snapshotted its `USE` restore succeeded. -/
theorem reconnect_install_ok_shape {T : Type} (d : Driver T) (auto : Bool) (now : Nat)
    (db : Option String) (c : Nat) (st2 : ConnectionState)
    (h : reconnect_install d auto now db c = Except.ok st2) :
    st2 = ConnectionState.new c db auto now ∧
    (∀ dbn, db = some dbn →
      d.queryDrop c ("USE `" ++ escape_identifier dbn ++ "`") = none) := by
  cases db with
  | none =>
    simp only [reconnect_install, Except.ok.injEq] at h
    refine ⟨h.symm, ?_⟩
    intro dbn hdb
    cases hdb
  | some dbn =>
    simp only [reconnect_install] at h
    cases hq : d.queryDrop c ("USE `" ++ escape_identifier dbn ++ "`") with
    | none =>
      rw [hq] at h
      simp only [Except.ok.injEq] at h
      refine ⟨h.symm, ?_⟩
      intro dbn' hdb'
      cases hdb'
      exact hq
    | some err =>
      rw [hq] at h
      simp at h

/-- Exhaustive outcome analysis of the action phase of `with_connection`. -/
theorem wcp_characterize {T : Type} (d : Driver T) (auto : Bool) (now : Nat)
    (db : Option String) (st1 : ConnectionState) (k : Nat) (pre : Bool)
    (acqs : List (Except String Nat)) :
    (∃ r, d.action 0 st1.conn = Except.ok r ∧
      wc_action_phase d auto now db st1 k pre acqs =
        { result := Except.ok r, entry := some st1, preReconnect := pre, retryGate := none,
          acts := [(st1.conn, Except.ok r)], acquires := acqs })
    ∨ (∃ e, d.action 0 st1.conn = Except.error e ∧ is_connection_lost_error e = false ∧
      wc_action_phase d auto now db st1 k pre acqs =
        { result := Except.error e, entry := some st1, preReconnect := pre, retryGate := none,
          acts := [(st1.conn, Except.error e)], acquires := acqs })
    ∨ (∃ e, d.action 0 st1.conn = Except.error e ∧ is_connection_lost_error e = true ∧
      (st1.can_safely_reconnect).1 = false ∧
      wc_action_phase d auto now db st1 k pre acqs =
        { result := Except.error ("Connection lost and auto-reconnect is disabled: " ++
            ((st1.can_safely_reconnect).2.getD "Unknown safety check failure") ++
            ". Original error: " ++ e ++ ". Please check your connection and retry manually.")
          entry := some st1, preReconnect := pre, retryGate := some st1.can_safely_reconnect,
          acts := [(st1.conn, Except.error e)], acquires := acqs })
    ∨ (∃ e ae, d.action 0 st1.conn = Except.error e ∧ is_connection_lost_error e = true ∧
      (st1.can_safely_reconnect).1 = true ∧ d.acquire k = Except.error ae ∧
      wc_action_phase d auto now db st1 k pre acqs =
        { result := Except.error ("Connection was lost and reconnection failed: " ++ e ++
            "; reconnect error: " ++ ae)
          entry := none, preReconnect := pre, retryGate := some st1.can_safely_reconnect,
          acts := [(st1.conn, Except.error e)], acquires := acqs ++ [Except.error ae] })
    ∨ (∃ e c2 msg, d.action 0 st1.conn = Except.error e ∧ is_connection_lost_error e = true ∧
      (st1.can_safely_reconnect).1 = true ∧ d.acquire k = Except.ok c2 ∧
      reconnect_install d auto now db c2 = Except.error msg ∧
      wc_action_phase d auto now db st1 k pre acqs =
        { result := Except.error msg, entry := none, preReconnect := pre,
          retryGate := some st1.can_safely_reconnect,
          acts := [(st1.conn, Except.error e)], acquires := acqs ++ [Except.ok c2] })
    ∨ (∃ e c2 st2, d.action 0 st1.conn = Except.error e ∧ is_connection_lost_error e = true ∧
      (st1.can_safely_reconnect).1 = true ∧ d.acquire k = Except.ok c2 ∧
      reconnect_install d auto now db c2 = Except.ok st2 ∧
      wc_action_phase d auto now db st1 k pre acqs =
        { result :=
            match d.action 1 (st2.record_use now).conn with
            | Except.ok r => Except.ok r
            | Except.error retry_err =>
              Except.error ("Connection was reset after error: " ++ e ++ "; retry failed: " ++
                retry_err)
          entry := some (st2.record_use now), preReconnect := pre,
          retryGate := some st1.can_safely_reconnect,
          acts := [(st1.conn, Except.error e),
            ((st2.record_use now).conn, d.action 1 (st2.record_use now).conn)]
          acquires := acqs ++ [Except.ok c2] }) := by
  unfold wc_action_phase
  cases ha : d.action 0 st1.conn with
  | ok r => exact Or.inl ⟨r, rfl, rfl⟩
  | error e =>
    by_cases hl : is_connection_lost_error e = true
    · by_cases hg1 : (st1.can_safely_reconnect).1 = true
      · cases hacq : d.acquire k with
        | error ae =>
          refine Or.inr (Or.inr (Or.inr (Or.inl ⟨e, ae, rfl, hl, hg1, rfl, ?_⟩)))
          simp [hl, hg1]
        | ok c2 =>
          cases hri : reconnect_install d auto now db c2 with
          | error msg =>
            refine Or.inr (Or.inr (Or.inr (Or.inr (Or.inl
              ⟨e, c2, msg, rfl, hl, hg1, rfl, hri, ?_⟩))))
            simp [hl, hg1, hri]
          | ok st2 =>
            refine Or.inr (Or.inr (Or.inr (Or.inr (Or.inr
              ⟨e, c2, st2, rfl, hl, hg1, rfl, hri, ?_⟩))))
            cases ha2 : d.action 1 (st2.record_use now).conn with
            | ok r2 => simp [hl, hg1, hri, ha2]
            | error e2 => simp [hl, hg1, hri, ha2]
      · have hg1' : (st1.can_safely_reconnect).1 = false := by
          revert hg1
          cases (st1.can_safely_reconnect).1 <;> simp
        refine Or.inr (Or.inr (Or.inl ⟨e, rfl, hl, hg1', ?_⟩))
        simp [hl, hg1']
    · have hl' : is_connection_lost_error e = false := by
        revert hl
        cases is_connection_lost_error e <;> simp
      refine Or.inr (Or.inl ⟨e, rfl, hl', ?_⟩)
      simp [hl']

/-- Exhaustive outcome analysis of `with_connection` on a present handle. -/
theorem wc_characterize {T : Type} (d : Driver T) (auto : Bool) (now : Nat)
    (st0 : ConnectionState) :
    (d.queryDrop st0.conn "SELECT 1" = none ∧
      with_connection d auto now (some st0) =
        wc_action_phase d auto now st0.current_database st0 0 false [])
    ∨ (∃ pe, d.queryDrop st0.conn "SELECT 1" = some pe ∧
      is_connection_lost_error pe = false ∧
      with_connection d auto now (some st0) =
        { result := Except.error ("Connection health check failed: " ++ pe),
          entry := some st0, preReconnect := false, retryGate := none, acts := [],
          acquires := [] })
    ∨ (∃ pe, d.queryDrop st0.conn "SELECT 1" = some pe ∧
      is_connection_lost_error pe = true ∧ (st0.can_safely_reconnect).1 = false ∧
      with_connection d auto now (some st0) =
        { result := Except.error ("Connection lost and auto-reconnect is disabled: " ++
            ((st0.can_safely_reconnect).2.getD "Unknown safety check failure") ++
            ". Please check your connection and retry manually.")
          entry := some st0, preReconnect := false, retryGate := none, acts := [],
          acquires := [] })
    ∨ (∃ pe ae, d.queryDrop st0.conn "SELECT 1" = some pe ∧
      is_connection_lost_error pe = true ∧ (st0.can_safely_reconnect).1 = true ∧
      d.acquire 0 = Except.error ae ∧
      with_connection d auto now (some st0) =
        { result := Except.error ("Connection was stale and reconnection failed: " ++ ae),
          entry := none, preReconnect := true, retryGate := none, acts := [],
          acquires := [Except.error ae] })
    ∨ (∃ pe c1 msg, d.queryDrop st0.conn "SELECT 1" = some pe ∧
      is_connection_lost_error pe = true ∧ (st0.can_safely_reconnect).1 = true ∧
      d.acquire 0 = Except.ok c1 ∧
      reconnect_install d auto now st0.current_database c1 = Except.error msg ∧
      with_connection d auto now (some st0) =
        { result := Except.error msg, entry := none, preReconnect := true, retryGate := none,
          acts := [], acquires := [Except.ok c1] })
    ∨ (∃ pe c1 st1, d.queryDrop st0.conn "SELECT 1" = some pe ∧
      is_connection_lost_error pe = true ∧ (st0.can_safely_reconnect).1 = true ∧
      d.acquire 0 = Except.ok c1 ∧
      reconnect_install d auto now st0.current_database c1 = Except.ok st1 ∧
      with_connection d auto now (some st0) =
        wc_action_phase d auto now st0.current_database st1 1 true [Except.ok c1]) := by
  simp only [with_connection]
  cases hq : d.queryDrop st0.conn "SELECT 1" with
  | none => exact Or.inl ⟨rfl, rfl⟩
  | some pe =>
    by_cases hl : is_connection_lost_error pe = true
    · by_cases hg1 : (st0.can_safely_reconnect).1 = true
      · cases hacq : d.acquire 0 with
        | error ae =>
          refine Or.inr (Or.inr (Or.inr (Or.inl ⟨pe, ae, rfl, hl, hg1, rfl, ?_⟩)))
          simp [hl, hg1]
        | ok c1 =>
          cases hri : reconnect_install d auto now st0.current_database c1 with
          | error msg =>
            refine Or.inr (Or.inr (Or.inr (Or.inr (Or.inl
              ⟨pe, c1, msg, rfl, hl, hg1, rfl, hri, ?_⟩))))
            simp [hl, hg1, hri]
          | ok st1 =>
            refine Or.inr (Or.inr (Or.inr (Or.inr (Or.inr
              ⟨pe, c1, st1, rfl, hl, hg1, rfl, hri, ?_⟩))))
            simp [hl, hg1, hri]
      · have hg1' : (st0.can_safely_reconnect).1 = false := by
          revert hg1
          cases (st0.can_safely_reconnect).1 <;> simp
        refine Or.inr (Or.inr (Or.inl ⟨pe, rfl, hl, hg1', ?_⟩))
        simp [hl, hg1']
    · have hl' : is_connection_lost_error pe = false := by
        revert hl
        cases is_connection_lost_error pe <;> simp
      refine Or.inr (Or.inl ⟨pe, rfl, hl', ?_⟩)
      simp [hl']

/-- The action phase invokes the action at most twice. -/
theorem wcp_acts_len {T : Type} (d : Driver T) (auto : Bool) (now : Nat)
    (db : Option String) (st1 : ConnectionState) (k : Nat) (pre : Bool)
    (acqs : List (Except String Nat)) :
    (wc_action_phase d auto now db st1 k pre acqs).acts.length ≤ 2 := by
  rcases wcp_characterize d auto now db st1 k pre acqs with
    ⟨r, ha, heq⟩ | ⟨e, ha, hl, heq⟩ | ⟨e, ha, hl, hg, heq⟩ | ⟨e, ae, ha, hl, hg, hacq, heq⟩ |
    ⟨e, c2, msg, ha, hl, hg, hacq, hri, heq⟩ | ⟨e, c2, st2, ha, hl, hg, hacq, hri, heq⟩ <;>
    simp [heq]

/-- The action phase reports the `pre` flag it was entered with. -/
theorem wcp_pre {T : Type} (d : Driver T) (auto : Bool) (now : Nat)
    (db : Option String) (st1 : ConnectionState) (k : Nat) (pre : Bool)
    (acqs : List (Except String Nat)) :
    (wc_action_phase d auto now db st1 k pre acqs).preReconnect = pre := by
  rcases wcp_characterize d auto now db st1 k pre acqs with
    ⟨r, ha, heq⟩ | ⟨e, ha, hl, heq⟩ | ⟨e, ha, hl, hg, heq⟩ | ⟨e, ae, ha, hl, hg, hacq, heq⟩ |
    ⟨e, c2, msg, ha, hl, hg, hacq, hri, heq⟩ | ⟨e, c2, st2, ha, hl, hg, hacq, hri, heq⟩ <;>
    simp [heq]

/-- When the action phase invoked the action twice, the safety gate held at
re-evaluation, the retry ran on the raw connection freshly acquired by the
phase's `timeout_get`, the replacement state carries the snapshot database
(restored by a successful `USE` when one was snapshotted), and its use was
recorded. -/
theorem wcp_retry_shape {T : Type} (d : Driver T) (auto : Bool) (now : Nat)
    (db : Option String) (st1 : ConnectionState) (k : Nat) (pre : Bool)
    (acqs : List (Except String Nat))
    (h2 : (wc_action_phase d auto now db st1 k pre acqs).acts.length = 2) :
    (wc_action_phase d auto now db st1 k pre acqs).retryGate = some (true, none) ∧
    d.acquire k = Except.ok
      ((wc_action_phase d auto now db st1 k pre acqs).acts.getD 1
        ((0 : Nat), (Except.error "" : Except String T))).1 ∧
    (wc_action_phase d auto now db st1 k pre acqs).entry =
      some ((ConnectionState.new
        ((wc_action_phase d auto now db st1 k pre acqs).acts.getD 1
          ((0 : Nat), (Except.error "" : Except String T))).1 db auto now).record_use now) ∧
    (∀ dbn, db = some dbn →
      d.queryDrop
        ((wc_action_phase d auto now db st1 k pre acqs).acts.getD 1
          ((0 : Nat), (Except.error "" : Except String T))).1
        ("USE `" ++ escape_identifier dbn ++ "`") = none) := by
  rcases wcp_characterize d auto now db st1 k pre acqs with
    ⟨r, ha, heq⟩ | ⟨e, ha, hl, heq⟩ | ⟨e, ha, hl, hg, heq⟩ | ⟨e, ae, ha, hl, hg, hacq, heq⟩ |
    ⟨e, c2, msg, ha, hl, hg, hacq, hri, heq⟩ | ⟨e, c2, st2, ha, hl, hg, hacq, hri, heq⟩
  · rw [heq] at h2; simp at h2
  · rw [heq] at h2; simp at h2
  · rw [heq] at h2; simp at h2
  · rw [heq] at h2; simp at h2
  · rw [heq] at h2; simp at h2
  · obtain ⟨hst2, huse⟩ := reconnect_install_ok_shape d auto now db c2 st2 hri
    subst hst2
    rw [heq]
    refine ⟨?_, ?_, ?_, ?_⟩
    · rw [csr_fst_true st1 hg]
    · exact hacq
    · rfl
    · intro dbn hdb
      exact huse dbn hdb

/-- When the action failed with a connection-lost error and the re-evaluated
gate blocked the retry, the phase returns the composite error built from the
gate's reason and the original error. -/
theorem wcp_blocked_shape {T : Type} (d : Driver T) (auto : Bool) (now : Nat)
    (db : Option String) (st1 : ConnectionState) (k : Nat) (pre : Bool)
    (acqs : List (Except String Nat)) (c : Nat) (e r : String)
    (hacts : (wc_action_phase d auto now db st1 k pre acqs).acts = [(c, Except.error e)])
    (hgate : (wc_action_phase d auto now db st1 k pre acqs).retryGate = some (false, some r)) :
    (wc_action_phase d auto now db st1 k pre acqs).result =
      Except.error ("Connection lost and auto-reconnect is disabled: " ++ r ++
        ". Original error: " ++ e ++ ". Please check your connection and retry manually.") := by
  rcases wcp_characterize d auto now db st1 k pre acqs with
    ⟨r0, ha, heq⟩ | ⟨e0, ha, hl, heq⟩ | ⟨e0, ha, hl, hg, heq⟩ |
    ⟨e0, ae, ha, hl, hg, hacq, heq⟩ |
    ⟨e0, c2, msg, ha, hl, hg, hacq, hri, heq⟩ | ⟨e0, c2, st2, ha, hl, hg, hacq, hri, heq⟩
  · rw [heq] at hgate; simp at hgate
  · rw [heq] at hgate; simp at hgate
  · rw [heq] at hgate hacts ⊢
    simp only [Option.some.injEq] at hgate
    simp only [List.cons.injEq, Prod.mk.injEq, Except.error.injEq, and_true] at hacts
    rw [hgate]
    simp [hacts.2]
  · rw [heq] at hgate
    simp only [Option.some.injEq] at hgate
    rw [hgate] at hg
    simp at hg
  · rw [heq] at hgate
    simp only [Option.some.injEq] at hgate
    rw [hgate] at hg
    simp at hg
  · rw [heq] at hacts
    simp at hacts

/-- C3: when a handle's state has auto_reconnect off, `with_connection`
never replaces its raw connection: the blocked probe-failure path and the
blocked action-failure path both return before any removal, so the map
entry is returned exactly as it was and no replacement raw connection is
requested from the pool. -/
theorem claim_C3_auto_off_never_replaced {T : Type} (d : Driver T) (auto : Bool) (now : Nat)
    (st0 : ConnectionState) (h : st0.auto_reconnect = false) :
    (with_connection d auto now (some st0)).entry = some st0 ∧
    (with_connection d auto now (some st0)).acquires = [] := by
  have hg0f : (st0.can_safely_reconnect).1 = false := by
    rw [csr_eq_of_not_auto st0 h]
  rcases wc_characterize d auto now st0 with
    ⟨hq, heq⟩ | ⟨pe, hq, hl, heq⟩ | ⟨pe, hq, hl, hg, heq⟩ | ⟨pe, ae, hq, hl, hg, hacq, heq⟩ |
    ⟨pe, c1, msg, hq, hl, hg, hacq, hri, heq⟩ | ⟨pe, c1, st1, hq, hl, hg, hacq, hri, heq⟩
  · rw [heq]
    rcases wcp_characterize d auto now st0.current_database st0 0 false [] with
      ⟨r0, ha, heq2⟩ | ⟨e0, ha, hl, heq2⟩ | ⟨e0, ha, hl, hg, heq2⟩ |
      ⟨e0, ae, ha, hl, hg, hacq, heq2⟩ |
      ⟨e0, c2, msg, ha, hl, hg, hacq, hri, heq2⟩ | ⟨e0, c2, st2, ha, hl, hg, hacq, hri, heq2⟩
    · rw [heq2]; exact ⟨rfl, rfl⟩
    · rw [heq2]; exact ⟨rfl, rfl⟩
    · rw [heq2]; exact ⟨rfl, rfl⟩
    · rw [hg0f] at hg; cases hg
    · rw [hg0f] at hg; cases hg
    · rw [hg0f] at hg; cases hg
  · rw [heq]; exact ⟨rfl, rfl⟩
  · rw [heq]; exact ⟨rfl, rfl⟩
  · rw [hg0f] at hg; cases hg
  · rw [hg0f] at hg; cases hg
  · rw [hg0f] at hg; cases hg

/-- C3 witness: a probe failure with a connection-lost message on a state
with auto_reconnect off leaves the entry untouched and acquires nothing. -/
theorem claim_C3_witness :
    (with_connection wcDriver1 false 99 (some wcSt2)).entry = some wcSt2 ∧
    (with_connection wcDriver1 false 99 (some wcSt2)).acquires = [] :=
  claim_C3_auto_off_never_replaced wcDriver1 false 99 wcSt2 (by decide)

/-- C4 counterexample: with a healthy probe and an action that succeeds on
its first invocation, `with_connection` returns the result but leaves the
entry exactly as it was — `use_count` stays 0 and `last_used_at` stays 0
although `now = 99` — so `last_used_at`/`use_count` are NOT updated on the
common success path, contrary to the claim. -/
theorem claim_C4_counterexample :
    (with_connection cxDriver true 99 (some cxSt)).result = Except.ok 7 ∧
    (with_connection cxDriver true 99 (some cxSt)).entry = some cxSt ∧
    cxSt.use_count = 0 ∧ cxSt.last_used_at = 0 ∧
    (with_connection cxDriver true 99 (some cxSt)).entry.map ConnectionState.use_count ≠
      some (cxSt.use_count + 1) := by
  refine ⟨by decide, by decide, by decide, by decide, by decide⟩

/-- C4 as amended: the success path of `with_connection` does not touch the
usage counters — an action that succeeds on its first invocation after a
healthy probe returns the entry exactly as it was; `record_use` runs only
on the post-failure retry path, before the second invocation, so whenever
the action was invoked twice the final entry has `use_count = 1` and
`last_used_at = now` regardless of the retry's outcome. -/
theorem claim_C4_record_use_only_on_retry {T : Type} (d : Driver T) (auto : Bool) (now : Nat)
    (st0 : ConnectionState) :
    (∀ r : T, d.queryDrop st0.conn "SELECT 1" = none → d.action 0 st0.conn = Except.ok r →
      with_connection d auto now (some st0) =
        { result := Except.ok r, entry := some st0, preReconnect := false, retryGate := none,
          acts := [(st0.conn, Except.ok r)], acquires := [] })
    ∧ ((with_connection d auto now (some st0)).acts.length = 2 →
      (with_connection d auto now (some st0)).entry.map
        (fun s => (s.use_count, s.last_used_at)) = some (1, now)) := by
  constructor
  · intro r hq ha
    simp only [with_connection, hq]
    simp [wc_action_phase, ha]
  · intro h2
    rcases wc_characterize d auto now st0 with
      ⟨hq, heq⟩ | ⟨pe, hq, hl, heq⟩ | ⟨pe, hq, hl, hg, heq⟩ | ⟨pe, ae, hq, hl, hg, hacq, heq⟩ |
      ⟨pe, c1, msg, hq, hl, hg, hacq, hri, heq⟩ | ⟨pe, c1, st1, hq, hl, hg, hacq, hri, heq⟩
    · rw [heq] at h2 ⊢
      obtain ⟨-, -, hent, -⟩ := wcp_retry_shape d auto now st0.current_database st0 0 false [] h2
      rw [hent]
      simp [ConnectionState.new, ConnectionState.record_use]
    · rw [heq] at h2; simp at h2
    · rw [heq] at h2; simp at h2
    · rw [heq] at h2; simp at h2
    · rw [heq] at h2; simp at h2
    · rw [heq] at h2 ⊢
      obtain ⟨-, -, hent, -⟩ :=
        wcp_retry_shape d auto now st0.current_database st1 1 true [Except.ok c1] h2
      rw [hent]
      simp [ConnectionState.new, ConnectionState.record_use]

/-- C4 witness (for the amended claim): the success path leaves the fresh
entry untouched, and on the retry path of the reconnect scenario the entry
records exactly one use at the reconnect time. -/
theorem claim_C4_witness :
    with_connection cxDriver true 99 (some cxSt) =
      { result := Except.ok 7, entry := some cxSt, preReconnect := false, retryGate := none,
        acts := [(cxSt.conn, Except.ok 7)], acquires := [] } ∧
    (with_connection wcDriver1 true 99 (some wcSt1)).entry.map
      (fun s => (s.use_count, s.last_used_at)) = some (1, 99) := by
  constructor
  · exact (claim_C4_record_use_only_on_retry cxDriver true 99 cxSt).1 7 rfl rfl
  · exact (claim_C4_record_use_only_on_retry wcDriver1 true 99 wcSt1).2 (by decide)

/-- C1: for every `with_connection` call the user action runs at most twice
(one retry, never a third attempt); whenever a second invocation happened
the safety gate had been re-evaluated and held (`(true, none)`), the retry
ran on the raw connection freshly acquired from the pool, installed under
the same handle with the snapshot `current_database` restored by a
successful `USE`; any pre-action reconnect likewise required the gate to
hold; and when the gate blocked the retry after a connection-lost action
failure, the call returns the composite error carrying the gate's reason
and the original error text. -/
theorem claim_C1_reconnect_protocol {T : Type} (d : Driver T) (auto : Bool) (now : Nat)
    (entry0 : Option ConnectionState) :
    ((with_connection d auto now entry0).acts.length ≤ 2)
    ∧ ((with_connection d auto now entry0).acts.length = 2 →
      (with_connection d auto now entry0).retryGate = some (true, none) ∧
      entry0.isSome = true ∧
      d.acquire (if (with_connection d auto now entry0).preReconnect then 1 else 0) =
        Except.ok
          ((with_connection d auto now entry0).acts.getD 1
            ((0 : Nat), (Except.error "" : Except String T))).1 ∧
      (with_connection d auto now entry0).entry =
        some ((ConnectionState.new
          ((with_connection d auto now entry0).acts.getD 1
            ((0 : Nat), (Except.error "" : Except String T))).1
          ((entry0.getD dummyState).current_database) auto now).record_use now) ∧
      (∀ dbn, (entry0.getD dummyState).current_database = some dbn →
        d.queryDrop
          ((with_connection d auto now entry0).acts.getD 1
            ((0 : Nat), (Except.error "" : Except String T))).1
          ("USE `" ++ escape_identifier dbn ++ "`") = none))
    ∧ ((with_connection d auto now entry0).preReconnect = true →
      entry0.isSome = true ∧
      (entry0.getD dummyState).can_safely_reconnect = (true, none))
    ∧ (∀ (c : Nat) (e r : String),
      (with_connection d auto now entry0).acts = [(c, Except.error e)] →
      (with_connection d auto now entry0).retryGate = some (false, some r) →
      (with_connection d auto now entry0).result =
        Except.error ("Connection lost and auto-reconnect is disabled: " ++ r ++
          ". Original error: " ++ e ++ ". Please check your connection and retry manually.") ∧
      ("Connection lost and auto-reconnect is disabled: " ++ r).data <:+:
        (except_err (with_connection d auto now entry0).result).data ∧
      e.data <:+: (except_err (with_connection d auto now entry0).result).data) := by
  cases entry0 with
  | none =>
    refine ⟨?_, ?_, ?_, ?_⟩ <;> simp [with_connection]
  | some st0 =>
    have key : ∀ (st1 : ConnectionState) (k : Nat) (pre : Bool)
        (acqs : List (Except String Nat)), st1.current_database = st0.current_database →
        (∀ (c : Nat) (e r : String),
          (wc_action_phase d auto now st0.current_database st1 k pre acqs).acts =
            [(c, Except.error e)] →
          (wc_action_phase d auto now st0.current_database st1 k pre acqs).retryGate =
            some (false, some r) →
          (wc_action_phase d auto now st0.current_database st1 k pre acqs).result =
            Except.error ("Connection lost and auto-reconnect is disabled: " ++ r ++
              ". Original error: " ++ e ++
              ". Please check your connection and retry manually.") ∧
          ("Connection lost and auto-reconnect is disabled: " ++ r).data <:+:
            (except_err
              (wc_action_phase d auto now st0.current_database st1 k pre acqs).result).data ∧
          e.data <:+:
            (except_err
              (wc_action_phase d auto now st0.current_database st1 k pre acqs).result).data) := by
      intro st1 k pre acqs _ c e r hacts hgate
      have hres := wcp_blocked_shape d auto now st0.current_database st1 k pre acqs c e r
        hacts hgate
      refine ⟨hres, ?_, ?_⟩
      · rw [hres]
        refine ⟨[], (". Original error: " ++ e ++
          ". Please check your connection and retry manually.").data, ?_⟩
        simp [except_err, String.data_append]
      · rw [hres]
        refine ⟨("Connection lost and auto-reconnect is disabled: " ++ r ++
          ". Original error: ").data,
          (". Please check your connection and retry manually.").data, ?_⟩
        simp [except_err, String.data_append]
    rcases wc_characterize d auto now st0 with
      ⟨hq, heq⟩ | ⟨pe, hq, hl, heq⟩ | ⟨pe, hq, hl, hg, heq⟩ | ⟨pe, ae, hq, hl, hg, hacq, heq⟩ |
      ⟨pe, c1, msg, hq, hl, hg, hacq, hri, heq⟩ | ⟨pe, c1, st1, hq, hl, hg, hacq, hri, heq⟩
    · rw [heq]
      refine ⟨wcp_acts_len d auto now st0.current_database st0 0 false [], ?_, ?_, ?_⟩
      · intro h2
        obtain ⟨hrg, hacq2, hent, huse⟩ :=
          wcp_retry_shape d auto now st0.current_database st0 0 false [] h2
        refine ⟨hrg, rfl, ?_, hent, huse⟩
        rw [wcp_pre d auto now st0.current_database st0 0 false []]
        exact hacq2
      · intro hpre
        rw [wcp_pre d auto now st0.current_database st0 0 false []] at hpre
        cases hpre
      · exact key st0 0 false [] rfl
    · rw [heq]
      refine ⟨by simp, by intro h2; simp at h2, by intro hpre; simp at hpre, ?_⟩
      intro c e r hacts
      simp at hacts
    · rw [heq]
      refine ⟨by simp, by intro h2; simp at h2, by intro hpre; simp at hpre, ?_⟩
      intro c e r hacts
      simp at hacts
    · rw [heq]
      refine ⟨by simp, by intro h2; simp at h2, ?_, ?_⟩
      · intro _
        exact ⟨rfl, csr_fst_true st0 hg⟩
      · intro c e r hacts
        simp at hacts
    · rw [heq]
      refine ⟨by simp, by intro h2; simp at h2, ?_, ?_⟩
      · intro _
        exact ⟨rfl, csr_fst_true st0 hg⟩
      · intro c e r hacts
        simp at hacts
    · rw [heq]
      obtain ⟨hst1, -⟩ := reconnect_install_ok_shape d auto now st0.current_database c1 st1 hri
      refine ⟨wcp_acts_len d auto now st0.current_database st1 1 true [Except.ok c1], ?_, ?_, ?_⟩
      · intro h2
        obtain ⟨hrg, hacq2, hent, huse⟩ :=
          wcp_retry_shape d auto now st0.current_database st1 1 true [Except.ok c1] h2
        refine ⟨hrg, rfl, ?_, hent, huse⟩
        rw [wcp_pre d auto now st0.current_database st1 1 true [Except.ok c1]]
        exact hacq2
      · intro _
        exact ⟨rfl, csr_fst_true st0 hg⟩
      · exact key st1 1 true [Except.ok c1] (by rw [hst1]; rfl)

/-- C1 witness: in the retry scenario (probe healthy, action fails once
with "server has gone away", gate open, pool hands out connection 7, `USE
sales` succeeds, retry returns 42) the call performed exactly two
invocations, the gate held at the retry, the retry connection is the
acquired one, and the restored entry carries `sales`. -/
theorem claim_C1_witness :
    (with_connection wcDriver1 true 99 (some wcSt1)).acts.length = 2 ∧
    (with_connection wcDriver1 true 99 (some wcSt1)).retryGate = some (true, none) ∧
    wcDriver1.acquire 0 = Except.ok
      ((with_connection wcDriver1 true 99 (some wcSt1)).acts.getD 1
        ((0 : Nat), (Except.error "" : Except String Nat))).1 ∧
    (with_connection wcDriver1 true 99 (some wcSt1)).entry =
      some ((ConnectionState.new
        ((with_connection wcDriver1 true 99 (some wcSt1)).acts.getD 1
          ((0 : Nat), (Except.error "" : Except String Nat))).1
        (some "sales") true 99).record_use 99) ∧
    wcDriver1.queryDrop
      ((with_connection wcDriver1 true 99 (some wcSt1)).acts.getD 1
        ((0 : Nat), (Except.error "" : Except String Nat))).1
      ("USE `" ++ escape_identifier "sales" ++ "`") = none ∧
    (with_connection wcDriver1 false 99 (some wcSt2)).result =
      Except.error ("Connection lost and auto-reconnect is disabled: " ++
        "Auto-reconnect is disabled for this connection" ++
        ". Original error: " ++ "server has gone away" ++
        ". Please check your connection and retry manually.") := by
  obtain ⟨-, hb, -, -⟩ := claim_C1_reconnect_protocol wcDriver1 true 99 (some wcSt1)
  obtain ⟨hrg, -, hacq, hent, huse⟩ := hb (by decide)
  obtain ⟨-, -, -, hd⟩ := claim_C1_reconnect_protocol wcDriver1 false 99 (some wcSt2)
  have hblocked := hd wcSt2.conn "server has gone away"
    "Auto-reconnect is disabled for this connection" (by decide) (by decide)
  refine ⟨by decide, hrg, ?_, ?_, huse "sales" rfl, hblocked.1⟩
  · have hpre : (with_connection wcDriver1 true 99 (some wcSt1)).preReconnect = false := by
      decide
    rw [hpre] at hacq
    exact hacq
  · exact hent

end DBWorkbench
